import Mathlib

/-!
Verification of the macsetup configuration-application engine against its
natural-language specification.  The Lean definitions below are a shallow
embedding of the Python sources:

  * `src/macsetup/models/config.py`   — data model (Profile, Configuration, ...)
  * `src/macsetup/services/preview.py`— PreviewService.resolve_profile
  * `src/macsetup/services/setup.py`  — SetupService.run and its item loops
  * `src/macsetup/services/init.py`   — InitService.init_icloud / init_local
  * `src/macsetup/cli.py`             — get_config_dir and ConfigDirError

Machine effects (filesystem, adapters, signal flag) are made explicit:
adapters become pure functions packaged in a `Sys` record, the persisted run
state becomes an explicit outcome value, the filesystem touched by the init
service becomes a record of file contents, and the asynchronous interrupt
flag becomes a tick-indexed oracle (the flag is read once per loop iteration
and once at the end of the run, exactly where the Python code reads it).
-/

/-! ### Data model (models/config.py) -/

/-- Homebrew package manager configuration (class `HomebrewApps`). -/
structure HomebrewApps where
  taps : List String := []
  formulas : List String := []
  casks : List String := []
deriving Repr, DecidableEq

/-- Mac App Store application (class `MacApp`). -/
structure MacApp where
  id : Nat
  name : String
deriving Repr, DecidableEq

/-- Application requiring manual installation (class `ManualApp`). -/
structure ManualApp where
  name : String
  url : Option String := none
  instructions : Option String := none
deriving Repr, DecidableEq

/-- Container for all application sources (class `Applications`). -/
structure Applications where
  homebrew : Option HomebrewApps := none
  mas : List MacApp := []
  manual : List ManualApp := []
deriving Repr, DecidableEq

/-- User configuration file (class `Dotfile`). -/
structure Dotfile where
  path : String
  mode : String := "symlink"
  template : Bool := false
deriving Repr, DecidableEq

/-- macOS system preference setting (class `Preference`).  The Python `value`
field has type `Any`; the executor only passes it through to the adapter, so
it is embedded as an opaque string payload. -/
structure Preference where
  domain : String
  key : Option String := none
  value : Option String := none
  type : Option String := none
deriving Repr, DecidableEq

/-- A named subset of configuration (class `Profile`).  The Python field
`extends` is called `extendsName` here because `extends` is a Lean keyword. -/
structure Profile where
  name : String
  description : Option String := none
  extendsName : Option String := none
  applications : Option Applications := none
  dotfiles : List Dotfile := []
  preferences : List Preference := []
deriving Repr, DecidableEq

/-- The root configuration entity (class `Configuration`).  The `version` and
`metadata` fields are never consulted by the resolver or the executor and are
omitted; profiles are a name-keyed map, embedded as an association list
(first match wins, as in a Python dict with unique keys). -/
structure Configuration where
  profiles : List (String × Profile)
deriving Repr, DecidableEq

/-- Record of a failed installation (class `FailedItem`).  Timestamps are
abstract instants, embedded as naturals. -/
structure FailedItem where
  type : String
  identifier : String
  error : String
  timestamp : Nat
deriving Repr, DecidableEq

/-- Setup progress record (class `SetupState`). -/
structure SetupState where
  startedAt : Nat
  profile : String
  completedItems : List String := []
  failedItems : List FailedItem := []
  status : String := "in_progress"
deriving Repr, DecidableEq

/-! ### Python truthiness helpers

Python `x or y` on optional strings treats both `None` and the empty string
as falsy; on lists it treats the empty list as falsy; a dataclass instance is
always truthy.  These helpers reproduce those rules where the source relies
on them. -/

/-- Python `a or b` for two optional strings: `a` unless `a` is `None` or
empty. -/
def pyOrStr (a b : Option String) : Option String :=
  match a with
  | some s => if s.isEmpty then b else some s
  | none => b

/-- Python `a or b` for optional dataclass values: `a` unless `a` is `None`
(a dataclass instance is always truthy). -/
def pyOrOpt {α : Type} (a b : Option α) : Option α :=
  match a with
  | some x => some x
  | none => b

/-- Python `r.error or "Unknown error"`: the error string unless it is
`None` or empty. -/
def errorOrUnknown (e : Option String) : String :=
  match e with
  | some s => if s.isEmpty then "Unknown error" else s
  | none => "Unknown error"

/-! ### Profile resolver (services/preview.py, PreviewService) -/

namespace PreviewService

/-- `PreviewService._get_profile` / `resolve_profile` lookup errors are
`ValueError`s in Python; the embedding returns them through `Except String`.
Transcribed from `PreviewService.resolve_profile` (preview.py lines 26-52):
if the profile has no `extends`, it is returned unchanged; otherwise the
parent is fetched (error if missing) and merged: child overrides parent for
fields the child defines.  The merged `Profile(...)` constructor call passes
no `extends`, so the result's `extendsName` is `none`. -/
def resolve_profile (cfg : Configuration) (profileName : String) :
    Except String Profile :=
  match List.lookup profileName cfg.profiles with
  | none => .error ("Profile " ++ profileName ++ " not found")
  | some profile =>
    match profile.extendsName with
    | none => .ok profile
    | some parentName =>
      match List.lookup parentName cfg.profiles with
      | none => .error ("Parent profile " ++ parentName ++ " not found")
      | some parent =>
        .ok { name := profile.name
            , description := pyOrStr profile.description parent.description
            , extendsName := none
            , applications := pyOrOpt profile.applications parent.applications
            , dotfiles :=
                if profile.dotfiles.isEmpty then parent.dotfiles
                else profile.dotfiles
            , preferences :=
                if profile.preferences.isEmpty then parent.preferences
                else profile.preferences }

end PreviewService

/-- The casks list of a resolved profile (empty when the profile has no
applications block or no homebrew block), used to state claims about the
merge result. -/
def profileCasks (p : Profile) : List String :=
  match p.applications with
  | some apps =>
    match apps.homebrew with
    | some hb => hb.casks
    | none => []
  | none => []

/-- The formulas list of a resolved profile. -/
def profileFormulas (p : Profile) : List String :=
  match p.applications with
  | some apps =>
    match apps.homebrew with
    | some hb => hb.formulas
    | none => []
  | none => []

/-- Casks of a resolution outcome; a sentinel is returned on error so that
claims about successful resolutions can be stated as plain equations. -/
def resolvedCasks (r : Except String Profile) : List String :=
  match r with
  | .ok p => profileCasks p
  | .error _ => ["resolution error"]

/-- Formulas of a resolution outcome (same sentinel convention). -/
def resolvedFormulas (r : Except String Profile) : List String :=
  match r with
  | .ok p => profileFormulas p
  | .error _ => ["resolution error"]

/-- Concrete document for the profile-merge claims: parent profile `base`
with `formulas=[git]`, `casks=[slack]`; child profile `dev` extending `base`
and defining only `formulas=[node]` in its applications block. -/
def mergeExampleConfig : Configuration :=
  { profiles :=
      [ ("base",
         { name := "base"
         , applications := some
             { homebrew := some { taps := [], formulas := ["git"], casks := ["slack"] } } })
      , ("dev",
         { name := "dev"
         , extendsName := some "base"
         , applications := some
             { homebrew := some { taps := [], formulas := ["node"], casks := [] } } }) ] }

/-- Claim-side rendering of the resolver contract (C9), written from the
claim wording: profile-not-found when the named profile or its named parent
is absent; description falls back to the parent only when the child value is
unset (the spec reads "empty/unset", so an empty string counts as unset);
`dotfiles` and `preferences` are taken wholesale from the child when
non-empty and otherwise inherited verbatim; the `applications` block is
inherited wholesale when the child defines none and otherwise is the child
block as-is, with no field-level merge inside it. -/
def resolve_profile_spec (cfg : Configuration) (profileName : String) :
    Except String Profile :=
  match List.lookup profileName cfg.profiles with
  | none => .error ("Profile " ++ profileName ++ " not found")
  | some child =>
    match child.extendsName with
    | none => .ok child
    | some parentName =>
      match List.lookup parentName cfg.profiles with
      | none => .error ("Parent profile " ++ parentName ++ " not found")
      | some parent =>
        .ok { name := child.name
            , description :=
                match child.description with
                | none => parent.description
                | some d => if d = "" then parent.description else some d
            , extendsName := none
            , applications :=
                if child.applications.isNone then parent.applications
                else child.applications
            , dotfiles :=
                if child.dotfiles = [] then parent.dotfiles else child.dotfiles
            , preferences :=
                if child.preferences = [] then parent.preferences
                else child.preferences }

/-! ### Setup executor (services/setup.py, SetupService)

Adapters are embedded as pure functions in a `Sys` record: each
`is_*_installed` query and each `install_*` call is a function of the item
key.  A single run never re-queries an item it has acted on, so pure
functions over keys are an exact model of one run; different runs against an
evolving machine are modelled by supplying different `Sys` values.

The asynchronous SIGINT/SIGTERM flag `self._interrupted` is read at the top
of every item iteration and once more at the end of `run`.  The embedding
counts those reads with a `tick` and models signal delivery as an optional
tick index `interruptAt`: the flag reads false before that tick and true
from it on (the flag is sticky — the handler only ever sets it). -/

/-- Result returned by every adapter operation (class `AdapterResult` in
adapters/__init__.py): a success flag and an optional error message. -/
structure AdapterResult where
  success : Bool
  error : Option String := none
deriving Repr, DecidableEq

/-- The pure view of the machine consumed by one run: adapter availability,
installed-state queries, install outcomes, the clock used for failure
timestamps, and the tick at which the interrupt flag starts reading true. -/
structure Sys where
  homebrewAvailable : Bool
  masAvailable : Bool
  isTapInstalled : String → Bool
  installTap : String → AdapterResult
  isFormulaInstalled : String → Bool
  installFormula : String → AdapterResult
  isCaskInstalled : String → Bool
  installCask : String → AdapterResult
  masIsInstalled : Nat → Bool
  masInstall : Nat → AdapterResult
  dotfileCopy : String → AdapterResult
  dotfileSymlink : String → AdapterResult
  defaultsWrite : String → String → Option String → Option String → AdapterResult
  now : Nat
  interruptAt : Option Nat

/-- Whether the interrupt flag reads true at flag-read number `tick`. -/
def checkInterrupted (sys : Sys) (tick : Nat) : Bool :=
  match sys.interruptAt with
  | none => false
  | some t => t ≤ tick

/-- Result of a setup operation (dataclass `SetupResult`). -/
structure SetupResult where
  success : Bool
  completedCount : Nat := 0
  failedCount : Nat := 0
  completedItems : List String := []
  failedItems : List FailedItem := []
  manualApps : List ManualApp := []
  interrupted : Bool := false
deriving Repr, DecidableEq

namespace SetupService

/-- The constructor-time options of `SetupService.__init__` that the run
consults (profile name, force and the two skip flags).  The configuration
document, also held on `self`, is passed to `run` separately so that claims
about which parts of the document the run reads can be stated directly. -/
structure Svc where
  profileName : String
  force : Bool
  skipDotfiles : Bool
  skipPreferences : Bool

/-- The mutable triple threaded through the run loops: the flag-read tick,
the in-memory `self._state`, and the `result` being built. -/
structure RunCtx where
  tick : Nat
  state : SetupState
  result : SetupResult
deriving Repr

/-- `SetupService._is_completed`: membership of the identifier in the
state's completed-items log (the state is always present inside `run`). -/
def is_completed (st : SetupState) (itemId : String) : Bool :=
  st.completedItems.contains itemId

/-- `SetupService._mark_completed`: append the identifier to the log. -/
def mark_completed (st : SetupState) (itemId : String) : SetupState :=
  { st with completedItems := st.completedItems ++ [itemId] }

/-- `SetupService._mark_failed`: append a failure record stamped with the
current time. -/
def mark_failed (sys : Sys) (st : SetupState) (itemType identifier error : String) :
    SetupState :=
  { st with failedItems :=
      st.failedItems ++ [{ type := itemType, identifier := identifier
                         , error := error, timestamp := sys.now }] }

/-- One install attempt shared by every item loop body: on success mark the
item completed and bump `completed_count`; on failure record a failed item
with `error or "Unknown error"` and bump `failed_count`. -/
def applyInstall (sys : Sys) (ctx : RunCtx) (itemType identifier itemId : String)
    (r : AdapterResult) : RunCtx :=
  if r.success then
    { ctx with state := mark_completed ctx.state itemId
             , result := { ctx.result with
                 completedCount := ctx.result.completedCount + 1 } }
  else
    { ctx with state := mark_failed sys ctx.state itemType identifier
                 (errorOrUnknown r.error)
             , result := { ctx.result with
                 failedCount := ctx.result.failedCount + 1 } }

/-- The taps loop of `_install_homebrew` (setup.py lines 259-274).  The
returned flag is true when the loop observed the interrupt flag and
executed the `return` that aborts the rest of `_install_homebrew`. -/
def runTaps (sys : Sys) (svc : Svc) : List String → RunCtx → RunCtx × Bool
  | [], ctx => (ctx, false)
  | tap :: rest, ctx =>
    if checkInterrupted sys ctx.tick then
      ({ ctx with tick := ctx.tick + 1 }, true)
    else
      let ctx := { ctx with tick := ctx.tick + 1 }
      let itemId := "tap:" ++ tap
      if !svc.force && (is_completed ctx.state itemId || sys.isTapInstalled tap) then
        runTaps sys svc rest ctx
      else
        runTaps sys svc rest (applyInstall sys ctx "tap" tap itemId (sys.installTap tap))

/-- The formulas loop of `_install_homebrew` (setup.py lines 277-292). -/
def runFormulas (sys : Sys) (svc : Svc) : List String → RunCtx → RunCtx × Bool
  | [], ctx => (ctx, false)
  | formula :: rest, ctx =>
    if checkInterrupted sys ctx.tick then
      ({ ctx with tick := ctx.tick + 1 }, true)
    else
      let ctx := { ctx with tick := ctx.tick + 1 }
      let itemId := "formula:" ++ formula
      if !svc.force &&
          (is_completed ctx.state itemId || sys.isFormulaInstalled formula) then
        runFormulas sys svc rest ctx
      else
        runFormulas sys svc rest
          (applyInstall sys ctx "formula" formula itemId (sys.installFormula formula))

/-- The casks loop of `_install_homebrew` (setup.py lines 295-310). -/
def runCasks (sys : Sys) (svc : Svc) : List String → RunCtx → RunCtx × Bool
  | [], ctx => (ctx, false)
  | cask :: rest, ctx =>
    if checkInterrupted sys ctx.tick then
      ({ ctx with tick := ctx.tick + 1 }, true)
    else
      let ctx := { ctx with tick := ctx.tick + 1 }
      let itemId := "cask:" ++ cask
      if !svc.force && (is_completed ctx.state itemId || sys.isCaskInstalled cask) then
        runCasks sys svc rest ctx
      else
        runCasks sys svc rest
          (applyInstall sys ctx "cask" cask itemId (sys.installCask cask))

/-- The app-store loop of `_install_mas_apps` (setup.py lines 317-332). -/
def runMas (sys : Sys) (svc : Svc) : List MacApp → RunCtx → RunCtx × Bool
  | [], ctx => (ctx, false)
  | app :: rest, ctx =>
    if checkInterrupted sys ctx.tick then
      ({ ctx with tick := ctx.tick + 1 }, true)
    else
      let ctx := { ctx with tick := ctx.tick + 1 }
      let itemId := "mas:" ++ toString app.id
      if !svc.force && (is_completed ctx.state itemId || sys.masIsInstalled app.id) then
        runMas sys svc rest ctx
      else
        runMas sys svc rest
          (applyInstall sys ctx "mas" (toString app.id) itemId (sys.masInstall app.id))

/-- The dotfile loop of `_setup_dotfiles` (setup.py lines 339-361): the
pre-action check consults only `_is_completed` (there is no adapter query
for whether the dotfile is already in place); the adapter call is `copy`
when the mode is `copy` and `symlink` otherwise. -/
def runDotfiles (sys : Sys) (svc : Svc) : List Dotfile → RunCtx → RunCtx × Bool
  | [], ctx => (ctx, false)
  | df :: rest, ctx =>
    if checkInterrupted sys ctx.tick then
      ({ ctx with tick := ctx.tick + 1 }, true)
    else
      let ctx := { ctx with tick := ctx.tick + 1 }
      let itemId := "dotfile:" ++ df.path
      if !svc.force && is_completed ctx.state itemId then
        runDotfiles sys svc rest ctx
      else
        let r := if df.mode = "copy" then sys.dotfileCopy df.path
                 else sys.dotfileSymlink df.path
        runDotfiles sys svc rest (applyInstall sys ctx "dotfile" df.path itemId r)

/-- The preference loop of `_apply_preferences` (setup.py lines 365-388):
entries missing a key or a value are passed over entirely; the pre-action
check again consults only `_is_completed`. -/
def runPreferences (sys : Sys) (svc : Svc) : List Preference → RunCtx → RunCtx × Bool
  | [], ctx => (ctx, false)
  | pref :: rest, ctx =>
    if checkInterrupted sys ctx.tick then
      ({ ctx with tick := ctx.tick + 1 }, true)
    else
      let ctx := { ctx with tick := ctx.tick + 1 }
      match pref.key, pref.value with
      | some key, some value =>
        let itemId := "preference:" ++ pref.domain ++ ":" ++ key
        if !svc.force && is_completed ctx.state itemId then
          runPreferences sys svc rest ctx
        else
          runPreferences sys svc rest
            (applyInstall sys ctx "preference" (pref.domain ++ ":" ++ key) itemId
              (sys.defaultsWrite pref.domain key (some value) pref.type))
      | _, _ => runPreferences sys svc rest ctx

/-- `SetupService._install_homebrew` (setup.py lines 251-310): nothing to do
when the profile has no applications block or no homebrew block; otherwise
taps, then formulas, then casks, each loop aborting the whole method when it
observes the interrupt flag. -/
def install_homebrew (sys : Sys) (svc : Svc) (profile : Profile) (ctx : RunCtx) :
    RunCtx :=
  match profile.applications with
  | none => ctx
  | some apps =>
    match apps.homebrew with
    | none => ctx
    | some hb =>
      let (ctx, ret) := runTaps sys svc hb.taps ctx
      if ret then ctx else
      let (ctx, ret) := runFormulas sys svc hb.formulas ctx
      if ret then ctx else
      (runCasks sys svc hb.casks ctx).1

/-- `SetupService._install_mas_apps` (setup.py lines 312-332). -/
def install_mas_apps (sys : Sys) (svc : Svc) (profile : Profile) (ctx : RunCtx) :
    RunCtx :=
  match profile.applications with
  | none => ctx
  | some apps =>
    if apps.mas.isEmpty then ctx else (runMas sys svc apps.mas ctx).1

/-- `SetupService._setup_dotfiles` (setup.py lines 334-361): the loop over
the profile's dotfiles (source/target path construction has no bearing on
control flow and is folded into the per-path adapter functions). -/
def setup_dotfiles (sys : Sys) (svc : Svc) (profile : Profile) (ctx : RunCtx) :
    RunCtx :=
  (runDotfiles sys svc profile.dotfiles ctx).1

/-- `SetupService._apply_preferences` (setup.py lines 363-388). -/
def apply_preferences (sys : Sys) (svc : Svc) (profile : Profile) (ctx : RunCtx) :
    RunCtx :=
  (runPreferences sys svc profile.preferences ctx).1

/-- What happens to the persisted `.state.json` file when `run` returns:
either `_clear_state` deleted it or `_save_state` wrote the given state. -/
inductive Persisted where
  | deleted : Persisted
  | saved : SetupState → Persisted
deriving Repr, DecidableEq

/-- The observable outcome of `SetupService.run`: the returned
`SetupResult` together with the persisted-state effect. -/
structure RunOutcome where
  result : SetupResult
  persisted : Persisted
deriving Repr, DecidableEq

/-- The tail of `SetupService.run` (setup.py lines 225-241): the final read
of the interrupt flag decides between saving with `in_progress`, deleting
the state on a zero failure count, and saving with `completed_with_errors`;
in every branch the result then copies the state's item lists. -/
def finishRun (sys : Sys) (ctx : RunCtx) : RunOutcome :=
  if checkInterrupted sys ctx.tick then
    let st := { ctx.state with status := "in_progress" }
    let res := { ctx.result with
      success := false
      interrupted := true
      completedItems := st.completedItems
      failedItems := st.failedItems }
    { result := res, persisted := .saved st }
  else if ctx.result.failedCount = 0 then
    let st := { ctx.state with status := "completed" }
    let res := { ctx.result with
      completedItems := st.completedItems
      failedItems := st.failedItems }
    { result := res, persisted := .deleted }
  else
    let st := { ctx.state with status := "completed_with_errors" }
    let res := { ctx.result with
      completedItems := st.completedItems
      failedItems := st.failedItems }
    { result := res, persisted := .saved st }

/-- One guarded phase of `run`: the phase body runs only when its guard
holds (e.g. `self.homebrew.is_available() and profile.applications`). -/
def phase (enabled : Bool) (f : RunCtx → RunCtx) (ctx : RunCtx) : RunCtx :=
  if enabled then f ctx else ctx

/-- The body of `SetupService.run` between state initialisation and the
final flag check: the four category phases in their fixed order, guarded as
in the source, followed by the manual-apps collection. -/
def runBody (sys : Sys) (svc : Svc) (profile : Profile) (ctx : RunCtx) : RunCtx :=
  let ctx := phase (sys.homebrewAvailable && profile.applications.isSome)
               (install_homebrew sys svc profile) ctx
  let ctx := phase (sys.masAvailable && profile.applications.isSome)
               (install_mas_apps sys svc profile) ctx
  let ctx := phase (!svc.skipDotfiles && !profile.dotfiles.isEmpty)
               (setup_dotfiles sys svc profile) ctx
  let ctx := phase (!svc.skipPreferences && !profile.preferences.isEmpty)
               (apply_preferences sys svc profile) ctx
  let manual := match profile.applications with
                | some apps => if apps.manual.isEmpty then [] else apps.manual
                | none => []
  { ctx with result := { ctx.result with manualApps := manual } }

/-- `SetupService.run` (setup.py lines 182-249).  The profile lookup of
`_get_profile` raises `ValueError` for a missing profile (embedded as
`Except.error`).  `loaded` stands for the parsed content of `.state.json`
(`none` when the file is absent or unreadable, exactly what `_load_state`
returns then); it is consulted only when `resume` is true.  Adapter calls in
the embedding are total, so the top-level `except` branch of the source is
unreachable here and the body always reaches the completion logic. -/
def run (sys : Sys) (cfg : Configuration) (svc : Svc) (resume : Bool)
    (loaded : Option SetupState) : Except String RunOutcome :=
  match List.lookup svc.profileName cfg.profiles with
  | none => .error ("Profile " ++ svc.profileName ++ " not found")
  | some profile =>
    let st0 : SetupState :=
      match (if resume then loaded else none) with
      | some s => s
      | none => { startedAt := sys.now, profile := svc.profileName }
    let res0 : SetupResult := { success := true }
    .ok (finishRun sys (runBody sys svc profile { tick := 0, state := st0, result := res0 }))

end SetupService

/-! ### Generic facts about the run loops -/

/-- The taps list reachable from a profile (empty without an applications
or homebrew block), mirroring the guarded access in `_install_homebrew`. -/
def profileTaps (p : Profile) : List String :=
  match p.applications with
  | some apps =>
    match apps.homebrew with
    | some hb => hb.taps
    | none => []
  | none => []

/-- The app-store list reachable from a profile. -/
def profileMasApps (p : Profile) : List MacApp :=
  match p.applications with
  | some apps => apps.mas
  | none => []

namespace SetupService

/-- Completed count of a run outcome (zero sentinel on lookup error). -/
def runCompletedCount (x : Except String RunOutcome) : Nat :=
  match x with
  | .ok o => o.result.completedCount
  | .error _ => 0

/-- Failed count of a run outcome (zero sentinel on lookup error). -/
def runFailedCount (x : Except String RunOutcome) : Nat :=
  match x with
  | .ok o => o.result.failedCount
  | .error _ => 0

/-- Interrupted flag of a run outcome (false sentinel on lookup error). -/
def runInterruptedFlag (x : Except String RunOutcome) : Bool :=
  match x with
  | .ok o => o.result.interrupted
  | .error _ => false

/-- Persisted-state effect of a run outcome (a saved sentinel state on
lookup error, which no successful run produces). -/
def runPersistedState (x : Except String RunOutcome) : Persisted :=
  match x with
  | .ok o => o.persisted
  | .error _ => .saved { startedAt := 0, profile := "lookup error" }

/-- Failed-items list of a run outcome (empty sentinel on lookup error). -/
def runFailedItemsOf (x : Except String RunOutcome) : List FailedItem :=
  match x with
  | .ok o => o.result.failedItems
  | .error _ => []

end SetupService

/-- A machine view with nothing available, nothing installed, every install
succeeding, and no signal delivery. -/
def sysNop : Sys :=
  { homebrewAvailable := false
  , masAvailable := false
  , isTapInstalled := fun _ => false
  , installTap := fun _ => { success := true }
  , isFormulaInstalled := fun _ => false
  , installFormula := fun _ => { success := true }
  , isCaskInstalled := fun _ => false
  , installCask := fun _ => { success := true }
  , masIsInstalled := fun _ => false
  , masInstall := fun _ => { success := true }
  , dotfileCopy := fun _ => { success := true }
  , dotfileSymlink := fun _ => { success := true }
  , defaultsWrite := fun _ _ _ _ => { success := true }
  , now := 0
  , interruptAt := none }

/-- A machine view where Homebrew and the app store are available, every
query reports the target already installed, every install succeeds, and no
signal is delivered. -/
def sysAllInstalled : Sys :=
  { sysNop with
    homebrewAvailable := true
    masAvailable := true
    isTapInstalled := fun _ => true
    isFormulaInstalled := fun _ => true
    isCaskInstalled := fun _ => true
    masIsInstalled := fun _ => true }

/-- A machine view with Homebrew available and nothing yet installed. -/
def sysBrewFresh : Sys :=
  { sysNop with homebrewAvailable := true }

/-- Default service options: profile `default`, force unset, nothing
skipped. -/
def svcPlain : SetupService.Svc :=
  { profileName := "default", force := false
  , skipDotfiles := false, skipPreferences := false }

/-- Service options with `--force` set. -/
def svcForce : SetupService.Svc :=
  { svcPlain with force := true }

/-- A document whose `default` profile carries exactly one dotfile. -/
def cfgDotfile : Configuration :=
  { profiles :=
      [ ("default", { name := "default", dotfiles := [{ path := ".zshrc" }] }) ] }

/-- A document whose `default` profile is empty. -/
def cfgEmptyProfile : Configuration :=
  { profiles := [ ("default", { name := "default" }) ] }

/-- A document whose `default` profile carries exactly one tap. -/
def cfgOneTap : Configuration :=
  { profiles :=
      [ ("default",
         { name := "default"
         , applications := some { homebrew := some { taps := ["demo"] } } }) ] }

/-- A document whose `default` profile carries one formula (used with
`sysAllInstalled`, which reports it installed). -/
def cfgOneFormula : Configuration :=
  { profiles :=
      [ ("default",
         { name := "default"
         , applications := some { homebrew := some { formulas := ["git"] } } }) ] }

/-- A loaded run state carrying one failure from an earlier run and nothing
completed. -/
def staleFailState : SetupState :=
  { startedAt := 0
  , profile := "default"
  , completedItems := []
  , failedItems := [{ type := "tap", identifier := "demo"
                    , error := "network error", timestamp := 0 }]
  , status := "completed_with_errors" }

/-- A loaded run state recording the tap `demo` as already completed. -/
def tapDoneState : SetupState :=
  { startedAt := 0, profile := "default"
  , completedItems := ["tap:demo"], failedItems := [] }

namespace SetupService

/-- A document with a child profile extending a parent that carries a
formula; the child itself declares nothing. -/
def cfgParentWithFormula : Configuration :=
  { profiles :=
      [ ("base",
         { name := "base"
         , applications := some { homebrew := some { formulas := ["git"] } } })
      , ("child", { name := "child", extendsName := some "base" }) ] }

/-- The same document with the parent profile stripped of all items. -/
def cfgParentEmpty : Configuration :=
  { profiles :=
      [ ("base", { name := "base" })
      , ("child", { name := "child", extendsName := some "base" }) ] }

end SetupService

/-- A run state with one completed item of each kind, for exercising the
skip rules. -/
def stateDemo : SetupState :=
  { startedAt := 0
  , profile := "default"
  , completedItems :=
      ["tap:t1", "formula:f1", "cask:c1", "mas:7", "dotfile:.zshrc",
       "preference:dom:k"]
  , failedItems := [] }

/-- A loop context carrying `stateDemo` and a fresh result. -/
def ctxDemo : SetupService.RunCtx :=
  { tick := 0, state := stateDemo, result := { success := true } }

/-! ### Storage migration (services/init.py, InitService) and config-dir
resolution (cli.py)

The filesystem slice these operations touch is embedded as an explicit
record: the local document and dotfile payloads, the iCloud document and
dotfile payloads, whether the iCloud macsetup directory is currently
reachable, and the pointer file content.  Filesystem calls that can raise
(`mkdir`, the copies, the deletes, the pointer write) are given explicit
success flags in an environment record — a `false` flag plays the `OSError`
of the source; the embedding keeps the filesystem unchanged by a failing
call (the copy helpers are split into their config and dotfiles steps, so a
dotfiles-copy failure still shows the already-copied document). -/

/-- The filesystem slice read and written by `InitService`. -/
structure MigrationFS where
  localConfig : Option String := none
  localDotfiles : Option (List (String × String)) := none
  icloudConfig : Option String := none
  icloudDotfiles : Option (List (String × String)) := none
  icloudDirExists : Bool := false
  pointer : Option String := none
deriving Repr, DecidableEq

/-- Success flags for the fallible filesystem calls of `InitService`. -/
structure InitEnv where
  icloudAvailable : Bool
  mkdirOk : Bool := true
  copyConfigOk : Bool := true
  copyDotfilesOk : Bool := true
  deleteOk : Bool := true
  pointerOk : Bool := true
deriving Repr, DecidableEq

/-- The result dictionary returned by `init_icloud` / `init_local`; absent
dictionary keys are `none`. -/
structure InitResult where
  success : Bool
  error : Option String := none
  message : Option String := none
  localPath : Option String := none
  icloudPath : Option String := none
  path : Option String := none
  storage : Option String := none
  configDir : Option String := none
  migrated : Option Bool := none
  filesMoved : Option Nat := none
  existingConfig : Option Bool := none
  filesCopied : Option Nat := none
  icloudDir : Option String := none
deriving Repr, DecidableEq

/-- The compiled-in default configuration directory of cli.py
(`Path.home() / ".config" / "macsetup"`). -/
def DEFAULT_CONFIG_DIR : String := "~/.config/macsetup"

/-- Pointer file name within the default config directory. -/
def POINTER_FILE_NAME : String := "config-dir"

/-- Full path of the pointer file. -/
def pointerFilePath : String := DEFAULT_CONFIG_DIR ++ "/" ++ POINTER_FILE_NAME

/-- The iCloud macsetup directory (`get_icloud_drive_path() / "macsetup"`). -/
def icloudMacsetupDir : String := "~/Library/Mobile Documents/com~apple~CloudDocs/macsetup"

/-- Path of the local document. -/
def localConfigPath : String := DEFAULT_CONFIG_DIR ++ "/config.yaml"

/-- Path of the iCloud document. -/
def icloudConfigPath : String := icloudMacsetupDir ++ "/config.yaml"

/-- The cleanup-failure message of init.py, stating that the copied data is
safe in iCloud. -/
def cleanupFailureMessage : String :=
  "Files were copied to iCloud but local cleanup failed. Your data is safe in iCloud. Remove local files manually."

namespace InitService

/-- `InitService.init_icloud` (init.py lines 23-158): the availability
check, the three-way case split on existing local/iCloud documents with
conflict refusal, the migration copy, the deferred deletion of local
originals, and the pointer write — returning the new filesystem together
with the result dictionary. -/
def init_icloud (env : InitEnv) (fs : MigrationFS) (force : Bool) :
    MigrationFS × InitResult :=
  if !env.icloudAvailable then
    (fs, { success := false, error := some "icloud_not_available"
         , message := some "iCloud Drive is not available" })
  else
    let has_local := fs.localConfig.isSome || fs.localDotfiles.isSome
    let has_icloud := fs.icloudConfig.isSome
    if has_local && has_icloud && !force then
      (fs, { success := false, error := some "conflict"
           , message := some "Configuration exists in both local storage and iCloud Drive."
           , localPath := some localConfigPath
           , icloudPath := some icloudConfigPath })
    else if !env.mkdirOk then
      (fs, { success := false, error := some "write_failure"
           , message := some "iCloud Drive may be full or read-only"
           , path := some icloudMacsetupDir })
    else
      let fs0 := { fs with icloudDirExists := true }
      if has_local then
        if fs0.localConfig.isSome && !env.copyConfigOk then
          (fs0, { success := false, error := some "write_failure"
                , message := some "iCloud Drive may be full or read-only"
                , path := some DEFAULT_CONFIG_DIR })
        else
          let fs1 := if fs0.localConfig.isSome then
                       { fs0 with icloudConfig := fs0.localConfig } else fs0
          if fs0.localDotfiles.isSome && !env.copyDotfilesOk then
            (fs1, { success := false, error := some "write_failure"
                  , message := some "iCloud Drive may be full or read-only"
                  , path := some DEFAULT_CONFIG_DIR })
          else
            let fs2 := match fs0.localDotfiles with
                       | some dfs => { fs1 with icloudDotfiles := some dfs }
                       | none => fs1
            let filesMoved := (if fs0.localConfig.isSome then 1 else 0) +
              (match fs0.localDotfiles with
               | some dfs => dfs.length
               | none => 0)
            if !env.deleteOk then
              (fs2, { success := false, error := some "cleanup_failure"
                    , message := some cleanupFailureMessage
                    , path := some DEFAULT_CONFIG_DIR
                    , configDir := some icloudMacsetupDir })
            else
              let fs3 := { fs2 with localConfig := none, localDotfiles := none }
              if !env.pointerOk then
                (fs3, { success := false, error := some "pointer_write_failure"
                      , message := some "Files were migrated to iCloud but the pointer file could not be written. Re-run to retry."
                      , configDir := some icloudMacsetupDir })
              else
                ({ fs3 with pointer := some icloudMacsetupDir },
                 { success := true, storage := some "icloud"
                 , configDir := some icloudMacsetupDir
                 , migrated := some true, filesMoved := some filesMoved })
      else if has_icloud then
        if !env.pointerOk then
          (fs0, { success := false, error := some "pointer_write_failure"
                , message := some "Could not write pointer file to redirect config to iCloud." })
        else
          ({ fs0 with pointer := some icloudMacsetupDir },
           { success := true, storage := some "icloud"
           , configDir := some icloudMacsetupDir
           , migrated := some false, filesMoved := some 0
           , existingConfig := some true })
      else
        if !env.pointerOk then
          (fs0, { success := false, error := some "pointer_write_failure"
                , message := some "Could not write pointer file to redirect config to iCloud." })
        else
          ({ fs0 with pointer := some icloudMacsetupDir },
           { success := true, storage := some "icloud"
           , configDir := some icloudMacsetupDir
           , migrated := some false, filesMoved := some 0 })

/-- `InitService.init_local` (init.py lines 196-258): require a pointer
file, pre-flight-check that its target directory is reachable before any
mutation, copy the iCloud document and dotfiles into the local directory,
then delete only the pointer file (the iCloud copy is never deleted). -/
def init_local (env : InitEnv) (fs : MigrationFS) : MigrationFS × InitResult :=
  match fs.pointer with
  | none =>
    (fs, { success := false, error := some "not_using_icloud"
         , message := some "Not currently using iCloud storage (no pointer file)" })
  | some icloudDir =>
    if !fs.icloudDirExists then
      (fs, { success := false, error := some "icloud_not_accessible"
           , message := some "iCloud config directory is not accessible. The pointer file was preserved. Re-run when iCloud is available." })
    else if fs.icloudConfig.isSome && !env.copyConfigOk then
      (fs, { success := false, error := some "copy_failure"
           , message := some "Failed to copy config from iCloud to local storage."
           , path := some DEFAULT_CONFIG_DIR })
    else
      let fs1 := if fs.icloudConfig.isSome then
                   { fs with localConfig := fs.icloudConfig } else fs
      if fs.icloudDotfiles.isSome && !env.copyDotfilesOk then
        (fs1, { success := false, error := some "copy_failure"
              , message := some "Failed to copy config from iCloud to local storage."
              , path := some DEFAULT_CONFIG_DIR })
      else
        let fs2 := match fs.icloudDotfiles with
                   | some dfs => { fs1 with localDotfiles := some dfs }
                   | none => fs1
        let filesCopied := (if fs.icloudConfig.isSome then 1 else 0) +
          (match fs.icloudDotfiles with
           | some dfs => dfs.length
           | none => 0)
        ({ fs2 with pointer := none },
         { success := true, storage := some "local"
         , configDir := some DEFAULT_CONFIG_DIR
         , filesCopied := some filesCopied
         , icloudDir := some (icloudDir.trim) })

end InitService

/-- The payload of cli.py `ConfigDirError`: the pointer file path and the
unreachable target it names. -/
structure ConfigDirError where
  pointer_path : String
  target_path : String
deriving Repr, DecidableEq

/-- The inputs `get_config_dir` consults: the `MACSETUP_CONFIG_DIR`
environment variable, the pointer file content (when the file exists), and
directory reachability. -/
structure CliFS where
  envConfigDir : Option String := none
  pointerContent : Option String := none
  isDir : String → Bool

/-- `get_config_dir` (cli.py lines 111-139): environment variable first
(Python truthiness — an empty value falls through), then the pointer file
(whose trimmed content must be a reachable directory, otherwise a
`ConfigDirError` carrying the pointer path and target is raised), then the
compiled-in default.  The eviction warning on the pointer path has no
bearing on the returned value and is omitted. -/
def get_config_dir (fs : CliFS) : Except ConfigDirError String :=
  let envDir := match fs.envConfigDir with
                | some e => if e.isEmpty then none else some e
                | none => none
  match envDir with
  | some e => .ok e
  | none =>
    match fs.pointerContent with
    | some content =>
      let target := content.trim
      if fs.isDir target then .ok target
      else .error { pointer_path := pointerFilePath, target_path := target }
    | none => .ok DEFAULT_CONFIG_DIR

/-! ### Verified properties -/

/-- Claim C9: profile resolution fails with a profile-not-found error when
the named profile or the parent named by its `extends` field is absent, and
otherwise merges one level exactly as the claim describes: the source
resolver agrees with the claim-side merge on every document and name. -/
theorem resolve_profile_meets_spec (cfg : Configuration) (profileName : String) :
    PreviewService.resolve_profile cfg profileName =
      resolve_profile_spec cfg profileName := by
  unfold PreviewService.resolve_profile resolve_profile_spec
  cases hc : List.lookup profileName cfg.profiles with
  | none => rfl
  | some child =>
  obtain ⟨nm, desc, ext, apps, dfs, prefs⟩ := child
  cases ext with
  | none => rfl
  | some parentName =>
  cases hp : List.lookup parentName cfg.profiles with
  | none => simp only [hp]
  | some parent =>
  cases desc with
  | none =>
    cases apps <;> cases dfs <;> cases prefs <;> simp [hp, pyOrStr, pyOrOpt]
  | some d =>
    by_cases he : d = ""
    · subst he
      have h0 : ("" : String).isEmpty = true := rfl
      cases apps <;> cases dfs <;> cases prefs <;> simp [hp, pyOrStr, pyOrOpt, h0]
    · have hie : d.isEmpty = false := by
        cases hie2 : d.isEmpty
        · rfl
        · exact absurd ((String.isEmpty_iff d).mp hie2) he
      cases apps <;> cases dfs <;> cases prefs <;>
        simp [hp, pyOrStr, pyOrOpt, hie, he]

/-- Claim C1 is false on the code: for the child profile `dev` defining only
`formulas=[node]` in its applications block and extending a parent with
`formulas=[git], casks=[slack]`, the resolved casks list is empty — the
child applications block replaces the parent block wholesale, so `slack` is
not inherited. -/
theorem merge_example_casks_not_inherited :
    resolvedCasks (PreviewService.resolve_profile mergeExampleConfig "dev") = [] ∧
      resolvedCasks (PreviewService.resolve_profile mergeExampleConfig "dev") ≠
        ["slack"] := by
  constructor
  · rfl
  · decide

/-- Claim C1 amended: resolving the child yields `formulas=[node]`
(overridden) and `casks=[]` — the entire applications block is the child
block; casks are not inherited from the parent. -/
theorem merge_example_resolved :
    resolvedFormulas (PreviewService.resolve_profile mergeExampleConfig "dev") =
        ["node"] ∧
      resolvedCasks (PreviewService.resolve_profile mergeExampleConfig "dev") = [] := by
  refine ⟨?_, ?_⟩ <;> rfl

namespace SetupService

/-- With no signal delivery planned, the interrupt flag never reads true. -/
theorem checkInterrupted_none {sys : Sys} (h : sys.interruptAt = none) (t : Nat) :
    checkInterrupted sys t = false := by
  unfold checkInterrupted
  rw [h]

/-- `applyInstall` never touches the result's `interrupted` field. -/
theorem applyInstall_interrupted (sys : Sys) (ctx : RunCtx)
    (itemType identifier itemId : String) (r : AdapterResult) :
    (applyInstall sys ctx itemType identifier itemId r).result.interrupted =
      ctx.result.interrupted := by
  unfold applyInstall
  split <;> rfl

/-- The taps loop never touches the result's `interrupted` field. -/
theorem runTaps_interrupted (sys : Sys) (svc : Svc) :
    ∀ (l : List String) (ctx : RunCtx),
      ((runTaps sys svc l ctx).1).result.interrupted = ctx.result.interrupted := by
  intro l
  induction l with
  | nil => intro ctx; rfl
  | cons tap rest ih =>
    intro ctx
    simp only [runTaps]
    split
    · rfl
    · split
      · rw [ih]
      · rw [ih, applyInstall_interrupted]

/-- The formulas loop never touches the result's `interrupted` field. -/
theorem runFormulas_interrupted (sys : Sys) (svc : Svc) :
    ∀ (l : List String) (ctx : RunCtx),
      ((runFormulas sys svc l ctx).1).result.interrupted = ctx.result.interrupted := by
  intro l
  induction l with
  | nil => intro ctx; rfl
  | cons formula rest ih =>
    intro ctx
    simp only [runFormulas]
    split
    · rfl
    · split
      · rw [ih]
      · rw [ih, applyInstall_interrupted]

/-- The casks loop never touches the result's `interrupted` field. -/
theorem runCasks_interrupted (sys : Sys) (svc : Svc) :
    ∀ (l : List String) (ctx : RunCtx),
      ((runCasks sys svc l ctx).1).result.interrupted = ctx.result.interrupted := by
  intro l
  induction l with
  | nil => intro ctx; rfl
  | cons cask rest ih =>
    intro ctx
    simp only [runCasks]
    split
    · rfl
    · split
      · rw [ih]
      · rw [ih, applyInstall_interrupted]

/-- The app-store loop never touches the result's `interrupted` field. -/
theorem runMas_interrupted (sys : Sys) (svc : Svc) :
    ∀ (l : List MacApp) (ctx : RunCtx),
      ((runMas sys svc l ctx).1).result.interrupted = ctx.result.interrupted := by
  intro l
  induction l with
  | nil => intro ctx; rfl
  | cons app rest ih =>
    intro ctx
    simp only [runMas]
    split
    · rfl
    · split
      · rw [ih]
      · rw [ih, applyInstall_interrupted]

/-- The dotfile loop never touches the result's `interrupted` field. -/
theorem runDotfiles_interrupted (sys : Sys) (svc : Svc) :
    ∀ (l : List Dotfile) (ctx : RunCtx),
      ((runDotfiles sys svc l ctx).1).result.interrupted = ctx.result.interrupted := by
  intro l
  induction l with
  | nil => intro ctx; rfl
  | cons df rest ih =>
    intro ctx
    simp only [runDotfiles]
    split
    · rfl
    · split
      · rw [ih]
      · rw [ih, applyInstall_interrupted]

/-- The preference loop never touches the result's `interrupted` field. -/
theorem runPreferences_interrupted (sys : Sys) (svc : Svc) :
    ∀ (l : List Preference) (ctx : RunCtx),
      ((runPreferences sys svc l ctx).1).result.interrupted = ctx.result.interrupted := by
  intro l
  induction l with
  | nil => intro ctx; rfl
  | cons pref rest ih =>
    intro ctx
    simp only [runPreferences]
    split
    · rfl
    · split
      · split
        · rw [ih]
        · rw [ih, applyInstall_interrupted]
      · rw [ih]

/-- `_install_homebrew` never touches the result's `interrupted` field. -/
theorem install_homebrew_interrupted (sys : Sys) (svc : Svc) (p : Profile) :
    ∀ ctx : RunCtx,
      (install_homebrew sys svc p ctx).result.interrupted = ctx.result.interrupted := by
  intro ctx
  unfold install_homebrew
  cases p.applications with
  | none => rfl
  | some apps =>
    obtain ⟨hbOpt, masList, manualList⟩ := apps
    dsimp only
    cases hbOpt with
    | none => rfl
    | some hb =>
      dsimp only
      rcases hT : runTaps sys svc hb.taps ctx with ⟨c1, r1⟩
      have e1 : c1.result.interrupted = ctx.result.interrupted := by
        have h := runTaps_interrupted sys svc hb.taps ctx
        rw [hT] at h
        exact h
      cases r1 with
      | true => exact e1
      | false =>
        dsimp only
        rcases hF : runFormulas sys svc hb.formulas c1 with ⟨c2, r2⟩
        have e2 : c2.result.interrupted = c1.result.interrupted := by
          have h := runFormulas_interrupted sys svc hb.formulas c1
          rw [hF] at h
          exact h
        cases r2 with
        | true => exact e2.trans e1
        | false =>
          exact (runCasks_interrupted sys svc hb.casks c2).trans (e2.trans e1)

/-- `_install_mas_apps` never touches the result's `interrupted` field. -/
theorem install_mas_apps_interrupted (sys : Sys) (svc : Svc) (p : Profile) :
    ∀ ctx : RunCtx,
      (install_mas_apps sys svc p ctx).result.interrupted = ctx.result.interrupted := by
  intro ctx
  unfold install_mas_apps
  cases p.applications with
  | none => rfl
  | some apps =>
    dsimp only
    split
    · rfl
    · rw [runMas_interrupted]

/-- `_setup_dotfiles` never touches the result's `interrupted` field. -/
theorem setup_dotfiles_interrupted (sys : Sys) (svc : Svc) (p : Profile) :
    ∀ ctx : RunCtx,
      (setup_dotfiles sys svc p ctx).result.interrupted = ctx.result.interrupted := by
  intro ctx
  unfold setup_dotfiles
  rw [runDotfiles_interrupted]

/-- `_apply_preferences` never touches the result's `interrupted` field. -/
theorem apply_preferences_interrupted (sys : Sys) (svc : Svc) (p : Profile) :
    ∀ ctx : RunCtx,
      (apply_preferences sys svc p ctx).result.interrupted = ctx.result.interrupted := by
  intro ctx
  unfold apply_preferences
  rw [runPreferences_interrupted]

/-- A guarded phase preserves any field its body preserves. -/
theorem phase_interrupted (b : Bool) (f : RunCtx → RunCtx)
    (hf : ∀ x, (f x).result.interrupted = x.result.interrupted) (ctx : RunCtx) :
    (phase b f ctx).result.interrupted = ctx.result.interrupted := by
  unfold phase
  split
  · exact hf ctx
  · rfl

/-- The whole run body never touches the result's `interrupted` field: the
only writer of that field is the completion logic in `finishRun`. -/
theorem runBody_interrupted (sys : Sys) (svc : Svc) (p : Profile) (ctx : RunCtx) :
    (runBody sys svc p ctx).result.interrupted = ctx.result.interrupted := by
  unfold runBody
  dsimp only
  rw [phase_interrupted _ _ (apply_preferences_interrupted sys svc p),
    phase_interrupted _ _ (setup_dotfiles_interrupted sys svc p),
    phase_interrupted _ _ (install_mas_apps_interrupted sys svc p),
    phase_interrupted _ _ (install_homebrew_interrupted sys svc p)]

/-- With `force` unset, no interruption pending and every tap reported
installed, the taps loop changes nothing but the tick: state and result are
returned untouched and the loop never early-returns. -/
theorem runTaps_all_installed (sys : Sys) (svc : Svc) (h0 : svc.force = false)
    (h1 : sys.interruptAt = none) :
    ∀ (l : List String) (ctx : RunCtx), (∀ t ∈ l, sys.isTapInstalled t = true) →
      (runTaps sys svc l ctx).1.result = ctx.result ∧
        (runTaps sys svc l ctx).2 = false := by
  intro l
  induction l with
  | nil => intro ctx h; exact ⟨rfl, rfl⟩
  | cons tap rest ih =>
    intro ctx h
    have hi : checkInterrupted sys ctx.tick = false := checkInterrupted_none h1 _
    have ht : sys.isTapInstalled tap = true := h tap (by simp)
    simp only [runTaps]
    split
    · next hcond => simp [hi] at hcond
    · split
      · exact ih _ (fun t htr => h t (List.mem_cons_of_mem _ htr))
      · next hcond => simp [h0, ht] at hcond

/-- Formulas analogue of `runTaps_all_installed`. -/
theorem runFormulas_all_installed (sys : Sys) (svc : Svc) (h0 : svc.force = false)
    (h1 : sys.interruptAt = none) :
    ∀ (l : List String) (ctx : RunCtx),
      (∀ f ∈ l, sys.isFormulaInstalled f = true) →
      (runFormulas sys svc l ctx).1.result = ctx.result ∧
        (runFormulas sys svc l ctx).2 = false := by
  intro l
  induction l with
  | nil => intro ctx h; exact ⟨rfl, rfl⟩
  | cons formula rest ih =>
    intro ctx h
    have hi : checkInterrupted sys ctx.tick = false := checkInterrupted_none h1 _
    have ht : sys.isFormulaInstalled formula = true := h formula (by simp)
    simp only [runFormulas]
    split
    · next hcond => simp [hi] at hcond
    · split
      · exact ih _ (fun t htr => h t (List.mem_cons_of_mem _ htr))
      · next hcond => simp [h0, ht] at hcond

/-- Casks analogue of `runTaps_all_installed`. -/
theorem runCasks_all_installed (sys : Sys) (svc : Svc) (h0 : svc.force = false)
    (h1 : sys.interruptAt = none) :
    ∀ (l : List String) (ctx : RunCtx), (∀ c ∈ l, sys.isCaskInstalled c = true) →
      (runCasks sys svc l ctx).1.result = ctx.result ∧
        (runCasks sys svc l ctx).2 = false := by
  intro l
  induction l with
  | nil => intro ctx h; exact ⟨rfl, rfl⟩
  | cons cask rest ih =>
    intro ctx h
    have hi : checkInterrupted sys ctx.tick = false := checkInterrupted_none h1 _
    have ht : sys.isCaskInstalled cask = true := h cask (by simp)
    simp only [runCasks]
    split
    · next hcond => simp [hi] at hcond
    · split
      · exact ih _ (fun t htr => h t (List.mem_cons_of_mem _ htr))
      · next hcond => simp [h0, ht] at hcond

/-- App-store analogue of `runTaps_all_installed`. -/
theorem runMas_all_installed (sys : Sys) (svc : Svc) (h0 : svc.force = false)
    (h1 : sys.interruptAt = none) :
    ∀ (l : List MacApp) (ctx : RunCtx),
      (∀ a ∈ l, sys.masIsInstalled a.id = true) →
      (runMas sys svc l ctx).1.result = ctx.result ∧
        (runMas sys svc l ctx).2 = false := by
  intro l
  induction l with
  | nil => intro ctx h; exact ⟨rfl, rfl⟩
  | cons app rest ih =>
    intro ctx h
    have hi : checkInterrupted sys ctx.tick = false := checkInterrupted_none h1 _
    have ht : sys.masIsInstalled app.id = true := h app (by simp)
    simp only [runMas]
    split
    · next hcond => simp [hi] at hcond
    · split
      · exact ih _ (fun t htr => h t (List.mem_cons_of_mem _ htr))
      · next hcond => simp [h0, ht] at hcond

/-- `_install_homebrew` leaves state and result untouched when force is
unset, no interruption is pending and every tap, formula and cask of the
profile is reported installed. -/
theorem install_homebrew_all_installed (sys : Sys) (svc : Svc) (p : Profile)
    (h0 : svc.force = false) (h1 : sys.interruptAt = none)
    (htap : ∀ t ∈ profileTaps p, sys.isTapInstalled t = true)
    (hform : ∀ f ∈ profileFormulas p, sys.isFormulaInstalled f = true)
    (hcask : ∀ c ∈ profileCasks p, sys.isCaskInstalled c = true) :
    ∀ ctx : RunCtx, (install_homebrew sys svc p ctx).result = ctx.result := by
  intro ctx
  unfold install_homebrew
  cases hA : p.applications with
  | none => rfl
  | some apps =>
    obtain ⟨hbOpt, masList, manualList⟩ := apps
    dsimp only
    cases hbOpt with
    | none => rfl
    | some hb =>
      have hT' : profileTaps p = hb.taps := by simp [profileTaps, hA]
      have hF' : profileFormulas p = hb.formulas := by simp [profileFormulas, hA]
      have hC' : profileCasks p = hb.casks := by simp [profileCasks, hA]
      dsimp only
      have t1 := runTaps_all_installed sys svc h0 h1 hb.taps ctx
        (fun t htm => htap t (hT' ▸ htm))
      rcases hTp : runTaps sys svc hb.taps ctx with ⟨c1, r1⟩
      rw [hTp] at t1
      obtain ⟨e1, f1⟩ := t1
      simp only at f1
      subst f1
      have t2 := runFormulas_all_installed sys svc h0 h1 hb.formulas c1
        (fun t htm => hform t (hF' ▸ htm))
      rcases hFp : runFormulas sys svc hb.formulas c1 with ⟨c2, r2⟩
      rw [hFp] at t2
      obtain ⟨e2, f2⟩ := t2
      simp only at f2
      subst f2
      have t3 := runCasks_all_installed sys svc h0 h1 hb.casks c2
        (fun t htm => hcask t (hC' ▸ htm))
      exact t3.1.trans (e2.trans e1)

/-- `_install_mas_apps` leaves state and result untouched when force is
unset, no interruption is pending and every app-store app of the profile is
reported installed. -/
theorem install_mas_apps_all_installed (sys : Sys) (svc : Svc) (p : Profile)
    (h0 : svc.force = false) (h1 : sys.interruptAt = none)
    (hmas : ∀ a ∈ profileMasApps p, sys.masIsInstalled a.id = true) :
    ∀ ctx : RunCtx, (install_mas_apps sys svc p ctx).result = ctx.result := by
  intro ctx
  unfold install_mas_apps
  cases hA : p.applications with
  | none => rfl
  | some apps =>
    obtain ⟨hbOpt, masList, manualList⟩ := apps
    have hM' : profileMasApps p = masList := by simp [profileMasApps, hA]
    dsimp only
    split
    · rfl
    · exact (runMas_all_installed sys svc h0 h1 masList ctx
        (fun a ham => hmas a (hM' ▸ ham))).1

/-- A guarded phase whose guard is false is the identity. -/
theorem phase_false {b : Bool} (h : b = false) (f : RunCtx → RunCtx) (ctx : RunCtx) :
    phase b f ctx = ctx := by
  unfold phase
  rw [h]
  rfl

/-- A guarded phase preserves the whole result record when its body does. -/
theorem phase_result (b : Bool) (f : RunCtx → RunCtx)
    (hf : ∀ x, (f x).result = x.result) (ctx : RunCtx) :
    (phase b f ctx).result = ctx.result := by
  unfold phase
  split
  · exact hf ctx
  · rfl

/-- On an all-installed system with force unset, no pending interruption and
no dotfiles or preferences in the profile, the run body leaves both counters
untouched. -/
theorem runBody_counts (sys : Sys) (svc : Svc) (p : Profile)
    (h0 : svc.force = false) (h1 : sys.interruptAt = none)
    (htap : ∀ t ∈ profileTaps p, sys.isTapInstalled t = true)
    (hform : ∀ f ∈ profileFormulas p, sys.isFormulaInstalled f = true)
    (hcask : ∀ c ∈ profileCasks p, sys.isCaskInstalled c = true)
    (hmas : ∀ a ∈ profileMasApps p, sys.masIsInstalled a.id = true)
    (hdf : p.dotfiles = []) (hpf : p.preferences = []) (ctx : RunCtx) :
    (runBody sys svc p ctx).result.completedCount = ctx.result.completedCount ∧
      (runBody sys svc p ctx).result.failedCount = ctx.result.failedCount := by
  have hf1 := install_homebrew_all_installed sys svc p h0 h1 htap hform hcask
  have hf2 := install_mas_apps_all_installed sys svc p h0 h1 hmas
  have hb3 : (!svc.skipDotfiles && !p.dotfiles.isEmpty) = false := by
    rw [hdf]
    simp
  have hb4 : (!svc.skipPreferences && !p.preferences.isEmpty) = false := by
    rw [hpf]
    simp
  unfold runBody
  dsimp only
  rw [phase_false hb4, phase_false hb3, phase_result _ _ hf2, phase_result _ _ hf1]
  exact ⟨rfl, rfl⟩

/-- The completion logic at the tail of `run` lands in exactly one of three
persisted-state outcomes, provided the loops left the result's interrupted
flag false (which `runBody_interrupted` guarantees for the initial result). -/
theorem finishRun_trichotomy (sys : Sys) (ctx : RunCtx)
    (hI : ctx.result.interrupted = false) :
    ((finishRun sys ctx).result.interrupted = true ∧
        ∃ st, (finishRun sys ctx).persisted = .saved st ∧
          st.status = "in_progress") ∨
      ((finishRun sys ctx).result.interrupted = false ∧
        (finishRun sys ctx).result.failedCount = 0 ∧
        (finishRun sys ctx).persisted = .deleted) ∨
      ((finishRun sys ctx).result.interrupted = false ∧
        (finishRun sys ctx).result.failedCount ≠ 0 ∧
        ∃ st, (finishRun sys ctx).persisted = .saved st ∧
          st.status = "completed_with_errors") := by
  unfold finishRun
  split
  · left
    exact ⟨rfl, _, rfl, rfl⟩
  · split
    · next hz =>
      right
      left
      exact ⟨hI, hz, rfl⟩
    · next hz =>
      right
      right
      exact ⟨hI, hz, _, rfl, rfl⟩

/-- Claim C4 is false as stated: on a resumed run whose loaded state still
carries an old failure, the current run can record zero new failures, and
then `run` deletes the persisted state file even though the run state's
`failed_items` list is not empty — the deletion condition is the current
run's `failed_count`, not the state's `failed_items`. -/
theorem resume_clears_state_despite_old_failures :
    runPersistedState (run sysNop cfgEmptyProfile svcPlain true (some staleFailState)) =
        .deleted ∧
      runFailedItemsOf (run sysNop cfgEmptyProfile svcPlain true (some staleFailState)) ≠
        [] := by
  constructor
  · rfl
  · decide

/-- Claim C4 amended: every completed `run` lands in exactly one of three
persisted-state outcomes — if the final read of the interrupt flag is true
the state is saved with status `in_progress` and the result reports
`interrupted` regardless of counts; otherwise, if the current run recorded
zero failures (`failed_count = 0`, even when a resumed state still carries
old `failed_items`) the persisted file is deleted; otherwise the state is
saved with status `completed_with_errors`. -/
theorem run_outcome_trichotomy (sys : Sys) (cfg : Configuration) (svc : Svc)
    (resume : Bool) (loaded : Option SetupState) (out : RunOutcome)
    (h : run sys cfg svc resume loaded = .ok out) :
    (out.result.interrupted = true ∧
        ∃ st, out.persisted = .saved st ∧ st.status = "in_progress") ∨
      (out.result.interrupted = false ∧ out.result.failedCount = 0 ∧
        out.persisted = .deleted) ∨
      (out.result.interrupted = false ∧ out.result.failedCount ≠ 0 ∧
        ∃ st, out.persisted = .saved st ∧
          st.status = "completed_with_errors") := by
  unfold run at h
  cases hl : List.lookup svc.profileName cfg.profiles with
  | none =>
    rw [hl] at h
    exact absurd h (by simp)
  | some p =>
    rw [hl] at h
    dsimp only at h
    have hout := (Except.ok.inj h).symm
    subst hout
    exact finishRun_trichotomy sys _ (runBody_interrupted sys svc p _)

/-- Witness for the amended C4 trichotomy: the concrete clean run of the
empty `default` profile on an idle machine, whose outcome deletes the state
file with no failures and no interruption. -/
theorem run_outcome_trichotomy_witness :
    (({ result := { success := true }, persisted := .deleted } :
          RunOutcome).result.interrupted = true ∧
        ∃ st, ({ result := { success := true }, persisted := .deleted } :
            RunOutcome).persisted = .saved st ∧ st.status = "in_progress") ∨
      (({ result := { success := true }, persisted := .deleted } :
          RunOutcome).result.interrupted = false ∧
        ({ result := { success := true }, persisted := .deleted } :
          RunOutcome).result.failedCount = 0 ∧
        ({ result := { success := true }, persisted := .deleted } :
          RunOutcome).persisted = .deleted) ∨
      (({ result := { success := true }, persisted := .deleted } :
          RunOutcome).result.interrupted = false ∧
        ({ result := { success := true }, persisted := .deleted } :
          RunOutcome).result.failedCount ≠ 0 ∧
        ∃ st, ({ result := { success := true }, persisted := .deleted } :
            RunOutcome).persisted = .saved st ∧
          st.status = "completed_with_errors") :=
  run_outcome_trichotomy sysNop cfgEmptyProfile svcPlain false none _ rfl

/-- Claim C10: `run` never performs inheritance resolution — its outcome
depends on the configuration document only through the entry for the named
profile, so items defined only on a parent profile named by `extends` can
never be installed by setup (the merge in `PreviewService.resolve_profile`
plays no part here). -/
theorem run_reads_only_named_profile (sys : Sys) (cfg1 cfg2 : Configuration)
    (svc : Svc) (resume : Bool) (loaded : Option SetupState)
    (h : List.lookup svc.profileName cfg1.profiles =
      List.lookup svc.profileName cfg2.profiles) :
    run sys cfg1 svc resume loaded = run sys cfg2 svc resume loaded := by
  unfold run
  rw [h]

/-- Witness for C10: running setup for profile `child` gives the same
outcome whether or not the parent `base` carries a formula — the parent's
items are invisible to setup. -/
theorem run_reads_only_named_profile_witness :
    run sysBrewFresh cfgParentWithFormula { svcPlain with profileName := "child" }
        false none =
      run sysBrewFresh cfgParentEmpty { svcPlain with profileName := "child" }
        false none :=
  run_reads_only_named_profile sysBrewFresh cfgParentWithFormula cfgParentEmpty
    { svcPlain with profileName := "child" } false none rfl

/-- Claim C2 is false as stated: starting from no saved state, a setup run
of a profile with one dotfile on an idle machine completes cleanly (zero
failures, no interruption, state file deleted) and counts the dotfile as
newly completed.  The second `force=false` run on the unchanged machine is
the identical computation from the identical inputs (the clean first run
left no state file behind), so it again reports `completed_count = 1`, not
zero: dotfiles have no adapter already-present check and the completed-items
log was deleted with the state. -/
theorem dotfile_rerun_counted :
    runFailedCount (run sysNop cfgDotfile svcPlain false none) = 0 ∧
      runInterruptedFlag (run sysNop cfgDotfile svcPlain false none) = false ∧
      runPersistedState (run sysNop cfgDotfile svcPlain false none) = .deleted ∧
      runCompletedCount (run sysNop cfgDotfile svcPlain false none) = 1 := by
  refine ⟨rfl, rfl, rfl, rfl⟩

/-- Claim C2 amended: the second run reports zero newly-completed items for
package-manager and app-store items — with `force` unset, no interruption
and every tap, formula, cask and app-store app of the profile reported
installed, a run completes with both counters zero and deletes the state
file — but this holds only for profiles without dotfiles and preferences:
those kinds have no adapter already-present check, are re-applied on every
run, and are counted as newly completed each time. -/
theorem run_no_new_packages_when_all_installed (sys : Sys) (cfg : Configuration)
    (svc : Svc) (resume : Bool) (loaded : Option SetupState) (p : Profile)
    (hlk : List.lookup svc.profileName cfg.profiles = some p)
    (h0 : svc.force = false) (h1 : sys.interruptAt = none)
    (htap : ∀ t ∈ profileTaps p, sys.isTapInstalled t = true)
    (hform : ∀ f ∈ profileFormulas p, sys.isFormulaInstalled f = true)
    (hcask : ∀ c ∈ profileCasks p, sys.isCaskInstalled c = true)
    (hmas : ∀ a ∈ profileMasApps p, sys.masIsInstalled a.id = true)
    (hdf : p.dotfiles = []) (hpf : p.preferences = []) :
    ∃ out, run sys cfg svc resume loaded = .ok out ∧
      out.result.completedCount = 0 ∧ out.result.failedCount = 0 ∧
      out.persisted = .deleted := by
  unfold run
  rw [hlk]
  dsimp only
  refine ⟨_, rfl, ?_⟩
  obtain ⟨hc, hfc⟩ := runBody_counts sys svc p h0 h1 htap hform hcask hmas hdf hpf
    { tick := 0
    , state := match (if resume then loaded else none) with
               | some s => s
               | none => { startedAt := sys.now, profile := svc.profileName }
    , result := { success := true } }
  unfold finishRun
  rw [checkInterrupted_none h1]
  rw [if_neg (by simp)]
  rw [if_pos hfc]
  exact ⟨hc, hfc, rfl⟩

/-- Witness for the amended C2: a profile with one formula on a machine
reporting everything installed yields a run with both counters zero and the
state file deleted. -/
theorem run_no_new_packages_witness :
    ∃ out, run sysAllInstalled cfgOneFormula svcPlain false none = .ok out ∧
      out.result.completedCount = 0 ∧ out.result.failedCount = 0 ∧
      out.persisted = .deleted :=
  run_no_new_packages_when_all_installed sysAllInstalled cfgOneFormula svcPlain
    false none _ rfl rfl rfl
    (fun t ht => by simp [profileTaps, cfgOneFormula] at ht)
    (fun f hf => rfl)
    (fun c hc => by simp [profileCasks, cfgOneFormula] at hc)
    (fun a ha => by simp [profileMasApps, cfgOneFormula] at ha)
    rfl rfl

/-- Claim C3 is false as stated: the completed-items check does NOT apply
when `force` is set.  On a resumed run whose loaded state already records
`tap:demo` as completed, `--force` re-executes the tap and counts it as
completed again (the claim requires it to be skipped as a no-op regardless
of the force flag). -/
theorem force_reexecutes_completed_tap :
    runCompletedCount (run sysBrewFresh cfgOneTap svcForce true (some tapDoneState)) =
        1 ∧
      runCompletedCount (run sysBrewFresh cfgOneTap svcForce true (some tapDoneState)) ≠
        0 := by
  constructor
  · rfl
  · decide

/-- Claim C3 amended: before acting on an item the executor consults its
checks only when `force` is unset.  With `force` unset, a tap, formula,
cask or app-store item is skipped as a no-op — counted neither completed
nor failed — when its identifier is already in `completed_items` or its
adapter reports the target installed; a dotfile or preference item has no
adapter already-present check and is skipped only on the completed-items
test.  With `force` set, both checks are bypassed: the adapter is invoked
even for an identifier already in `completed_items`, and a not-yet-completed
dotfile is always applied. -/
theorem item_skip_rules :
    (∀ (sys : Sys) (svc : Svc) (tap : String) (rest : List String) (ctx : RunCtx),
       svc.force = false → checkInterrupted sys ctx.tick = false →
       (is_completed ctx.state ("tap:" ++ tap) = true ∨
         sys.isTapInstalled tap = true) →
       runTaps sys svc (tap :: rest) ctx =
         runTaps sys svc rest { ctx with tick := ctx.tick + 1 }) ∧
    (∀ (sys : Sys) (svc : Svc) (formula : String) (rest : List String)
       (ctx : RunCtx),
       svc.force = false → checkInterrupted sys ctx.tick = false →
       (is_completed ctx.state ("formula:" ++ formula) = true ∨
         sys.isFormulaInstalled formula = true) →
       runFormulas sys svc (formula :: rest) ctx =
         runFormulas sys svc rest { ctx with tick := ctx.tick + 1 }) ∧
    (∀ (sys : Sys) (svc : Svc) (cask : String) (rest : List String) (ctx : RunCtx),
       svc.force = false → checkInterrupted sys ctx.tick = false →
       (is_completed ctx.state ("cask:" ++ cask) = true ∨
         sys.isCaskInstalled cask = true) →
       runCasks sys svc (cask :: rest) ctx =
         runCasks sys svc rest { ctx with tick := ctx.tick + 1 }) ∧
    (∀ (sys : Sys) (svc : Svc) (app : MacApp) (rest : List MacApp) (ctx : RunCtx),
       svc.force = false → checkInterrupted sys ctx.tick = false →
       (is_completed ctx.state ("mas:" ++ toString app.id) = true ∨
         sys.masIsInstalled app.id = true) →
       runMas sys svc (app :: rest) ctx =
         runMas sys svc rest { ctx with tick := ctx.tick + 1 }) ∧
    (∀ (sys : Sys) (svc : Svc) (df : Dotfile) (rest : List Dotfile) (ctx : RunCtx),
       svc.force = false → checkInterrupted sys ctx.tick = false →
       is_completed ctx.state ("dotfile:" ++ df.path) = true →
       runDotfiles sys svc (df :: rest) ctx =
         runDotfiles sys svc rest { ctx with tick := ctx.tick + 1 }) ∧
    (∀ (sys : Sys) (svc : Svc) (domain k v : String) (ty : Option String)
       (rest : List Preference) (ctx : RunCtx),
       svc.force = false → checkInterrupted sys ctx.tick = false →
       is_completed ctx.state ("preference:" ++ domain ++ ":" ++ k) = true →
       runPreferences sys svc
           ({ domain := domain, key := some k, value := some v, type := ty } :: rest)
           ctx =
         runPreferences sys svc rest { ctx with tick := ctx.tick + 1 }) ∧
    (∀ (sys : Sys) (svc : Svc) (tap : String) (rest : List String) (ctx : RunCtx),
       svc.force = true → checkInterrupted sys ctx.tick = false →
       is_completed ctx.state ("tap:" ++ tap) = true →
       runTaps sys svc (tap :: rest) ctx =
         runTaps sys svc rest
           (applyInstall sys { ctx with tick := ctx.tick + 1 } "tap" tap
             ("tap:" ++ tap) (sys.installTap tap))) ∧
    (∀ (sys : Sys) (svc : Svc) (df : Dotfile) (rest : List Dotfile) (ctx : RunCtx),
       svc.force = false → checkInterrupted sys ctx.tick = false →
       is_completed ctx.state ("dotfile:" ++ df.path) = false →
       runDotfiles sys svc (df :: rest) ctx =
         runDotfiles sys svc rest
           (applyInstall sys { ctx with tick := ctx.tick + 1 } "dotfile" df.path
             ("dotfile:" ++ df.path)
             (if df.mode = "copy" then sys.dotfileCopy df.path
              else sys.dotfileSymlink df.path))) := by
  refine ⟨?_, ?_, ?_, ?_, ?_, ?_, ?_, ?_⟩
  · intro sys svc tap rest ctx h0 hi hc
    rcases hc with hc | hc <;> simp [runTaps, hi, h0, hc]
  · intro sys svc formula rest ctx h0 hi hc
    rcases hc with hc | hc <;> simp [runFormulas, hi, h0, hc]
  · intro sys svc cask rest ctx h0 hi hc
    rcases hc with hc | hc <;> simp [runCasks, hi, h0, hc]
  · intro sys svc app rest ctx h0 hi hc
    rcases hc with hc | hc <;> simp [runMas, hi, h0, hc]
  · intro sys svc df rest ctx h0 hi hc
    simp [runDotfiles, hi, h0, hc]
  · intro sys svc domain k v ty rest ctx h0 hi hc
    simp [runPreferences, hi, h0, hc]
  · intro sys svc tap rest ctx h0 hi hc
    simp [runTaps, hi, h0]
  · intro sys svc df rest ctx h0 hi hc
    simp [runDotfiles, hi, h0, hc]

/-- Witness for the amended C3 skip rules, instantiating every conjunct at
a concrete item: completed or installed items of the four package kinds are
skipped, completed dotfiles and preferences are skipped, while under
`--force` a completed tap is re-executed and an uncompleted dotfile is
always applied. -/
theorem item_skip_rules_witness :
    (runTaps sysNop svcPlain ["t1"] ctxDemo =
        runTaps sysNop svcPlain [] { ctxDemo with tick := ctxDemo.tick + 1 }) ∧
      (runFormulas sysNop svcPlain ["f1"] ctxDemo =
        runFormulas sysNop svcPlain [] { ctxDemo with tick := ctxDemo.tick + 1 }) ∧
      (runCasks sysNop svcPlain ["c1"] ctxDemo =
        runCasks sysNop svcPlain [] { ctxDemo with tick := ctxDemo.tick + 1 }) ∧
      (runMas sysNop svcPlain [{ id := 7, name := "Demo" }] ctxDemo =
        runMas sysNop svcPlain [] { ctxDemo with tick := ctxDemo.tick + 1 }) ∧
      (runDotfiles sysNop svcPlain [{ path := ".zshrc" }] ctxDemo =
        runDotfiles sysNop svcPlain [] { ctxDemo with tick := ctxDemo.tick + 1 }) ∧
      (runPreferences sysNop svcPlain
          [{ domain := "dom", key := some "k", value := some "1", type := none }]
          ctxDemo =
        runPreferences sysNop svcPlain [] { ctxDemo with tick := ctxDemo.tick + 1 }) ∧
      (runTaps sysNop svcForce ["t1"] ctxDemo =
        runTaps sysNop svcForce []
          (applyInstall sysNop { ctxDemo with tick := ctxDemo.tick + 1 } "tap" "t1"
            ("tap:" ++ "t1") (sysNop.installTap "t1"))) ∧
      (runDotfiles sysNop svcPlain [{ path := ".vimrc" }] ctxDemo =
        runDotfiles sysNop svcPlain []
          (applyInstall sysNop { ctxDemo with tick := ctxDemo.tick + 1 } "dotfile"
            ".vimrc" ("dotfile:" ++ ".vimrc")
            (if ({ path := ".vimrc" } : Dotfile).mode = "copy" then
               sysNop.dotfileCopy ".vimrc"
             else sysNop.dotfileSymlink ".vimrc"))) := by
  refine ⟨?_, ?_, ?_, ?_, ?_, ?_, ?_, ?_⟩
  · exact item_skip_rules.1 sysNop svcPlain "t1" [] ctxDemo rfl rfl
      (Or.inl (by decide))
  · exact item_skip_rules.2.1 sysNop svcPlain "f1" [] ctxDemo rfl rfl
      (Or.inl (by decide))
  · exact item_skip_rules.2.2.1 sysNop svcPlain "c1" [] ctxDemo rfl rfl
      (Or.inl (by decide))
  · exact item_skip_rules.2.2.2.1 sysNop svcPlain { id := 7, name := "Demo" } []
      ctxDemo rfl rfl (Or.inl (by decide))
  · exact item_skip_rules.2.2.2.2.1 sysNop svcPlain { path := ".zshrc" } []
      ctxDemo rfl rfl (by decide)
  · exact item_skip_rules.2.2.2.2.2.1 sysNop svcPlain "dom" "k" "1" none []
      ctxDemo rfl rfl (by decide)
  · exact item_skip_rules.2.2.2.2.2.2.1 sysNop svcForce "t1" [] ctxDemo rfl rfl
      (by decide)
  · exact item_skip_rules.2.2.2.2.2.2.2 sysNop svcPlain { path := ".vimrc" } []
      ctxDemo rfl rfl (by decide)

end SetupService

namespace InitService

/-- Claim C5: `init --icloud` with both a local and an iCloud document
present and `force` unset returns a conflict error naming both paths and
modifies nothing — the filesystem (documents, dotfiles, pointer file) is
returned exactly as it was. -/
theorem init_icloud_conflict_frame (env : InitEnv) (fs : MigrationFS)
    (hA : env.icloudAvailable = true)
    (hL : fs.localConfig.isSome = true)
    (hI : fs.icloudConfig.isSome = true) :
    (init_icloud env fs false).1 = fs ∧
      (init_icloud env fs false).2.success = false ∧
      (init_icloud env fs false).2.error = some "conflict" ∧
      (init_icloud env fs false).2.localPath = some localConfigPath ∧
      (init_icloud env fs false).2.icloudPath = some icloudConfigPath := by
  refine ⟨?_, ?_, ?_, ?_, ?_⟩ <;> simp [init_icloud, hA, hL, hI]

/-- Witness for C5 at a concrete filesystem holding both documents. -/
theorem init_icloud_conflict_frame_witness :
    (init_icloud { icloudAvailable := true }
          { localConfig := some "localdoc", icloudConfig := some "clouddoc" }
          false).1 =
        { localConfig := some "localdoc", icloudConfig := some "clouddoc" } ∧
      (init_icloud { icloudAvailable := true }
          { localConfig := some "localdoc", icloudConfig := some "clouddoc" }
          false).2.success = false ∧
      (init_icloud { icloudAvailable := true }
          { localConfig := some "localdoc", icloudConfig := some "clouddoc" }
          false).2.error = some "conflict" ∧
      (init_icloud { icloudAvailable := true }
          { localConfig := some "localdoc", icloudConfig := some "clouddoc" }
          false).2.localPath = some localConfigPath ∧
      (init_icloud { icloudAvailable := true }
          { localConfig := some "localdoc", icloudConfig := some "clouddoc" }
          false).2.icloudPath = some icloudConfigPath :=
  init_icloud_conflict_frame { icloudAvailable := true }
    { localConfig := some "localdoc", icloudConfig := some "clouddoc" }
    rfl rfl rfl

/-- Claim C6: during migration, when the copies to iCloud succeed but the
deletion of the local originals fails, the result reports
`cleanup_failure` (never `write_failure`), the iCloud target already holds
the migrated document and dotfiles, and the message states that the data is
safe in the iCloud copy. -/
theorem init_icloud_cleanup_failure (env : InitEnv) (fs : MigrationFS)
    (c : String)
    (hA : env.icloudAvailable = true) (hM : env.mkdirOk = true)
    (hCC : env.copyConfigOk = true) (hCD : env.copyDotfilesOk = true)
    (hD : env.deleteOk = false)
    (hL : fs.localConfig = some c) (hI : fs.icloudConfig = none) :
    (init_icloud env fs false).2.error = some "cleanup_failure" ∧
      (init_icloud env fs false).2.error ≠ some "write_failure" ∧
      (∃ a b, (init_icloud env fs false).2.message =
        some (a ++ "Your data is safe in iCloud" ++ b)) ∧
      (init_icloud env fs false).1.icloudConfig = some c ∧
      (init_icloud env fs false).1.localConfig = some c ∧
      (∀ dfs, fs.localDotfiles = some dfs →
        (init_icloud env fs false).1.icloudDotfiles = some dfs) := by
  have hmsg : (init_icloud env fs false).2.message = some cleanupFailureMessage := by
    cases hdf : fs.localDotfiles <;>
      simp [init_icloud, hA, hM, hCC, hCD, hD, hL, hI, hdf]
  refine ⟨?_, ?_, ?_, ?_, ?_, ?_⟩
  · cases hdf : fs.localDotfiles <;>
      simp [init_icloud, hA, hM, hCC, hCD, hD, hL, hI, hdf]
  · cases hdf : fs.localDotfiles <;>
      simp [init_icloud, hA, hM, hCC, hCD, hD, hL, hI, hdf]
  · refine ⟨"Files were copied to iCloud but local cleanup failed. ",
      ". Remove local files manually.", ?_⟩
    rw [hmsg]
    rfl
  · cases hdf : fs.localDotfiles <;>
      simp [init_icloud, hA, hM, hCC, hCD, hD, hL, hI, hdf]
  · cases hdf : fs.localDotfiles <;>
      simp [init_icloud, hA, hM, hCC, hCD, hD, hL, hI, hdf]
  · intro dfs hdf
    simp [init_icloud, hA, hM, hCC, hCD, hD, hL, hI, hdf]

/-- Witness for C6 at a concrete filesystem with a local document and one
local dotfile, on an environment whose delete step fails. -/
theorem init_icloud_cleanup_failure_witness :
    (init_icloud { icloudAvailable := true, deleteOk := false }
          { localConfig := some "doc", localDotfiles := some [(".zshrc", "z")] }
          false).2.error = some "cleanup_failure" ∧
      (init_icloud { icloudAvailable := true, deleteOk := false }
          { localConfig := some "doc", localDotfiles := some [(".zshrc", "z")] }
          false).2.error ≠ some "write_failure" ∧
      (∃ a b, (init_icloud { icloudAvailable := true, deleteOk := false }
          { localConfig := some "doc", localDotfiles := some [(".zshrc", "z")] }
          false).2.message = some (a ++ "Your data is safe in iCloud" ++ b)) ∧
      (init_icloud { icloudAvailable := true, deleteOk := false }
          { localConfig := some "doc", localDotfiles := some [(".zshrc", "z")] }
          false).1.icloudConfig = some "doc" ∧
      (init_icloud { icloudAvailable := true, deleteOk := false }
          { localConfig := some "doc", localDotfiles := some [(".zshrc", "z")] }
          false).1.localConfig = some "doc" ∧
      (∀ dfs,
        ({ localConfig := some "doc", localDotfiles := some [(".zshrc", "z")] } :
            MigrationFS).localDotfiles = some dfs →
        (init_icloud { icloudAvailable := true, deleteOk := false }
            { localConfig := some "doc", localDotfiles := some [(".zshrc", "z")] }
            false).1.icloudDotfiles = some dfs) :=
  init_icloud_cleanup_failure { icloudAvailable := true, deleteOk := false }
    { localConfig := some "doc", localDotfiles := some [(".zshrc", "z")] }
    "doc" rfl rfl rfl rfl rfl rfl rfl

/-- Claim C7: `init --local` pre-flight-checks that the pointer target is
reachable before any mutation — on failure it reports
`icloud_not_accessible` (the spec calls this `remote_not_accessible`) and
the filesystem, pointer file included, is returned exactly as it was; on
success it copies the iCloud document and dotfiles into the local
directory, then deletes only the pointer file — the iCloud copy is returned
unchanged, never deleted. -/
theorem init_local_preflight_and_frame :
    (∀ (env : InitEnv) (fs : MigrationFS) (p : String),
       fs.pointer = some p → fs.icloudDirExists = false →
       (init_local env fs).1 = fs ∧
         (init_local env fs).2.success = false ∧
         (init_local env fs).2.error = some "icloud_not_accessible") ∧
    (∀ (env : InitEnv) (fs : MigrationFS) (p : String),
       fs.pointer = some p → fs.icloudDirExists = true →
       env.copyConfigOk = true → env.copyDotfilesOk = true →
       (init_local env fs).2.success = true ∧
         (init_local env fs).1.pointer = none ∧
         (init_local env fs).1.icloudConfig = fs.icloudConfig ∧
         (init_local env fs).1.icloudDotfiles = fs.icloudDotfiles ∧
         (init_local env fs).1.icloudDirExists = true ∧
         (∀ cdoc, fs.icloudConfig = some cdoc →
           (init_local env fs).1.localConfig = some cdoc) ∧
         (∀ dfs, fs.icloudDotfiles = some dfs →
           (init_local env fs).1.localDotfiles = some dfs)) := by
  constructor
  · intro env fs p hp hdir
    refine ⟨?_, ?_, ?_⟩ <;> simp [init_local, hp, hdir]
  · intro env fs p hp hdir hcc hcd
    refine ⟨?_, ?_, ?_, ?_, ?_, ?_, ?_⟩
    · cases hic : fs.icloudConfig <;> cases hid : fs.icloudDotfiles <;>
        simp [init_local, hp, hdir, hcc, hcd, hic, hid]
    · cases hic : fs.icloudConfig <;> cases hid : fs.icloudDotfiles <;>
        simp [init_local, hp, hdir, hcc, hcd, hic, hid]
    · cases hic : fs.icloudConfig <;> cases hid : fs.icloudDotfiles <;>
        simp [init_local, hp, hdir, hcc, hcd, hic, hid]
    · cases hic : fs.icloudConfig <;> cases hid : fs.icloudDotfiles <;>
        simp [init_local, hp, hdir, hcc, hcd, hic, hid]
    · cases hic : fs.icloudConfig <;> cases hid : fs.icloudDotfiles <;>
        simp [init_local, hp, hdir, hcc, hcd, hic, hid]
    · intro cdoc hic
      cases hid : fs.icloudDotfiles <;>
        simp [init_local, hp, hdir, hcc, hcd, hic, hid]
    · intro dfs hid
      cases hic : fs.icloudConfig <;>
        simp [init_local, hp, hdir, hcc, hcd, hic, hid]

/-- Witness for C7 at two concrete filesystems: a pointer whose target is
offline (nothing changes), and a pointer whose target is reachable (the
document and dotfiles are copied local, the pointer deleted, the iCloud
copy intact). -/
theorem init_local_preflight_and_frame_witness :
    ((init_local { icloudAvailable := true }
          { pointer := some "target", icloudDirExists := false }).1 =
        { pointer := some "target", icloudDirExists := false } ∧
      (init_local { icloudAvailable := true }
          { pointer := some "target", icloudDirExists := false }).2.success =
        false ∧
      (init_local { icloudAvailable := true }
          { pointer := some "target", icloudDirExists := false }).2.error =
        some "icloud_not_accessible") ∧
    ((init_local { icloudAvailable := true }
          { pointer := some "target", icloudDirExists := true
          , icloudConfig := some "doc"
          , icloudDotfiles := some [(".zshrc", "z")] }).2.success = true ∧
      (init_local { icloudAvailable := true }
          { pointer := some "target", icloudDirExists := true
          , icloudConfig := some "doc"
          , icloudDotfiles := some [(".zshrc", "z")] }).1.pointer = none ∧
      (init_local { icloudAvailable := true }
          { pointer := some "target", icloudDirExists := true
          , icloudConfig := some "doc"
          , icloudDotfiles := some [(".zshrc", "z")] }).1.icloudConfig =
        ({ pointer := some "target", icloudDirExists := true
         , icloudConfig := some "doc"
         , icloudDotfiles := some [(".zshrc", "z")] } : MigrationFS).icloudConfig ∧
      (init_local { icloudAvailable := true }
          { pointer := some "target", icloudDirExists := true
          , icloudConfig := some "doc"
          , icloudDotfiles := some [(".zshrc", "z")] }).1.icloudDotfiles =
        ({ pointer := some "target", icloudDirExists := true
         , icloudConfig := some "doc"
         , icloudDotfiles := some [(".zshrc", "z")] } : MigrationFS).icloudDotfiles ∧
      (init_local { icloudAvailable := true }
          { pointer := some "target", icloudDirExists := true
          , icloudConfig := some "doc"
          , icloudDotfiles := some [(".zshrc", "z")] }).1.icloudDirExists = true ∧
      (∀ cdoc,
        ({ pointer := some "target", icloudDirExists := true
         , icloudConfig := some "doc"
         , icloudDotfiles := some [(".zshrc", "z")] } : MigrationFS).icloudConfig =
            some cdoc →
        (init_local { icloudAvailable := true }
            { pointer := some "target", icloudDirExists := true
            , icloudConfig := some "doc"
            , icloudDotfiles := some [(".zshrc", "z")] }).1.localConfig =
          some cdoc) ∧
      (∀ dfs,
        ({ pointer := some "target", icloudDirExists := true
         , icloudConfig := some "doc"
         , icloudDotfiles := some [(".zshrc", "z")] } : MigrationFS).icloudDotfiles =
            some dfs →
        (init_local { icloudAvailable := true }
            { pointer := some "target", icloudDirExists := true
            , icloudConfig := some "doc"
            , icloudDotfiles := some [(".zshrc", "z")] }).1.localDotfiles =
          some dfs)) :=
  ⟨init_local_preflight_and_frame.1 { icloudAvailable := true }
      { pointer := some "target", icloudDirExists := false } "target" rfl rfl,
   init_local_preflight_and_frame.2 { icloudAvailable := true }
      { pointer := some "target", icloudDirExists := true
      , icloudConfig := some "doc", icloudDotfiles := some [(".zshrc", "z")] }
      "target" rfl rfl rfl rfl⟩

end InitService

/-- Claim C8: config-directory resolution obeys the precedence environment
variable, then pointer target, then compiled-in default; and a pointer file
whose target is not a reachable directory raises a `ConfigDirError` carrying
the pointer path and the target — never a silent fall back to the default. -/
theorem get_config_dir_precedence :
    (∀ (fs : CliFS) (e : String), fs.envConfigDir = some e →
       e.isEmpty = false → get_config_dir fs = .ok e) ∧
    (∀ fs : CliFS, (fs.envConfigDir = none ∨ fs.envConfigDir = some "") →
       fs.pointerContent = none → get_config_dir fs = .ok DEFAULT_CONFIG_DIR) ∧
    (∀ (fs : CliFS) (c : String),
       (fs.envConfigDir = none ∨ fs.envConfigDir = some "") →
       fs.pointerContent = some c → fs.isDir c.trim = true →
       get_config_dir fs = .ok c.trim) ∧
    (∀ (fs : CliFS) (c : String),
       (fs.envConfigDir = none ∨ fs.envConfigDir = some "") →
       fs.pointerContent = some c → fs.isDir c.trim = false →
       get_config_dir fs =
         .error { pointer_path := pointerFilePath, target_path := c.trim }) := by
  refine ⟨?_, ?_, ?_, ?_⟩
  · intro fs e he hne
    simp [get_config_dir, he, hne]
  · intro fs he hp
    rcases he with he | he <;>
      simp [get_config_dir, he, hp, show ("" : String).isEmpty = true from rfl]
  · intro fs c he hp hdir
    rcases he with he | he <;>
      simp [get_config_dir, he, hp, hdir,
        show ("" : String).isEmpty = true from rfl]
  · intro fs c he hp hdir
    rcases he with he | he <;>
      simp [get_config_dir, he, hp, hdir,
        show ("" : String).isEmpty = true from rfl]

/-- Witness for C8 at four concrete filesystems, one per precedence case:
environment override wins, no pointer falls back to the default, a
reachable pointer target wins over the default, and an unreachable pointer
target raises the error carrying both paths. -/
theorem get_config_dir_precedence_witness :
    get_config_dir
        { envConfigDir := some "/tmp/cfg", pointerContent := some "/other"
        , isDir := fun _ => true } = .ok "/tmp/cfg" ∧
      get_config_dir
        { envConfigDir := some "", pointerContent := none
        , isDir := fun _ => false } = .ok DEFAULT_CONFIG_DIR ∧
      get_config_dir
        { envConfigDir := none, pointerContent := some "/mnt/dir"
        , isDir := fun _ => true } = .ok ("/mnt/dir" : String).trim ∧
      get_config_dir
        { envConfigDir := none, pointerContent := some "/gone"
        , isDir := fun _ => false } =
        .error { pointer_path := pointerFilePath
               , target_path := ("/gone" : String).trim } :=
  ⟨get_config_dir_precedence.1
      { envConfigDir := some "/tmp/cfg", pointerContent := some "/other"
      , isDir := fun _ => true } "/tmp/cfg" rfl rfl,
   get_config_dir_precedence.2.1
      { envConfigDir := some "", pointerContent := none
      , isDir := fun _ => false } (Or.inr rfl) rfl,
   get_config_dir_precedence.2.2.1
      { envConfigDir := none, pointerContent := some "/mnt/dir"
      , isDir := fun _ => true } "/mnt/dir" (Or.inl rfl) rfl rfl,
   get_config_dir_precedence.2.2.2
      { envConfigDir := none, pointerContent := some "/gone"
      , isDir := fun _ => false } "/gone" (Or.inl rfl) rfl rfl⟩
